import Mathlib

/-!
Shallow embedding of the Shopify custom-variant server.

The repository carries three historical versions of `server.js`:
* `src/unnamed/part_001` — the current server (HMAC check wrapped in
  try/catch, `res.ok` status check in the request helper, `toCleanup`
  modelled as a JavaScript `Set`, data-URI stripping of `imageBase64`);
* the first document of `src/unnamed/part_002` (lines 1-259) — same webhook
  and helper behaviour, but the create route uploads `imageBase64` verbatim
  to `files.json` without stripping a data-URI prefix;
* the second document of `src/unnamed/part_002` (lines 260-433), called
  "legacy" below — its request helper performs no HTTP status check, its
  webhook verification has no try/catch around `crypto.timingSafeEqual`,
  and its cleanup accumulator is a plain array (no deduplication).

Modelling conventions: JavaScript values that may be `undefined`, `null` or
present are a `JsField`; upstream Shopify responses are oracle functions
passed as arguments; a thrown JavaScript exception is `Except.error`; the
raw request body and all JavaScript strings are Lean `String`s (a list of
characters), and the string operations used by the source (`startsWith`,
regexp stripping) are defined below directly on the character list so that
they are both executable and provable.
-/

/-- A JavaScript object field: absent (`undefined`), `null`, or a value. -/
inductive JsField (α : Type) where
  | missing : JsField α
  | null : JsField α
  | val : α → JsField α
deriving DecidableEq

/-- JavaScript `x || d` for a non-string field whose only falsy inhabitants
are `undefined` and `null` (an array, in particular, is always truthy). -/
def JsField.orDefault {α : Type} : JsField α → α → α
  | .val a, _ => a
  | _, d => d

/-- JavaScript `x || d` for a string field: `undefined`, `null` and the empty
string are falsy. -/
def JsField.strOr : JsField String → String → String
  | .val s, d => if s = "" then d else s
  | _, d => d

/-- JavaScript truthiness of a numeric field (`undefined`, `null` and `0` are
falsy); yields the value when truthy. -/
def JsField.truthyNat : JsField Nat → Option Nat
  | .val n => if n = 0 then none else some n
  | _ => none

/-- JavaScript truthiness of a string field (`undefined`, `null` and `""` are
falsy); yields the value when truthy. -/
def JsField.truthyStr : JsField String → Option String
  | .val s => if s = "" then none else some s
  | _ => none

/-- An ES6 destructuring default (`const { x = d } = o`): applies only when
the field is absent (`undefined`), not when it is `null`. -/
def JsField.orMissing {α : Type} : JsField α → α → JsField α
  | .missing, d => .val d
  | f, _ => f

/-- JavaScript `s.startsWith(p)`. -/
def jsStartsWith (s p : String) : Bool := p.data.isPrefixOf s.data

/-- JavaScript `s.slice(n)` on characters (used only to express the regexp
replacement below). -/
def jsDrop (s : String) (n : Nat) : String := String.mk (s.data.drop n)

/-- An upstream HTTP response as seen by `fetch`: status code and raw text. -/
structure HttpResp where
  status : Nat
  body : String
deriving DecidableEq

/-- `res.ok` of the Fetch API: status in the inclusive range 200-299. -/
def statusOk (s : Nat) : Bool := 200 ≤ s && s ≤ 299

/-- Errors thrown by the request helpers. -/
inductive ShopifyError where
  | apiError : Nat → String → ShopifyError
  | jsonParseError : String → ShopifyError
deriving DecidableEq

/-- `shopifyRequest` response handling of the current servers (part_001 lines
25-48 and part_002 first version lines 34-70): when `res.ok` is false, throw
`Shopify API error (status): raw` carrying the status and the raw response
body; otherwise `JSON.parse` the text (the parse itself is the oracle
`parse`), throwing a parse error when it fails. -/
def shopifyRequest {α : Type} (parse : String → Option α) (resp : HttpResp) :
    Except ShopifyError α :=
  if !(statusOk resp.status) then
    Except.error (ShopifyError.apiError resp.status resp.body)
  else
    match parse resp.body with
    | some v => Except.ok v
    | none => Except.error (ShopifyError.jsonParseError resp.body)

/-- Legacy `shopifyRequest` (part_002 lines 280-291): there is no check of the
HTTP status at all; the raw text is parsed and returned whatever the status
was, and only a parse failure throws. -/
def shopifyRequestLegacy {α : Type} (parse : String → Option α) (resp : HttpResp) :
    Except ShopifyError α :=
  match parse resp.body with
  | some v => Except.ok v
  | none => Except.error (ShopifyError.jsonParseError resp.body)

/-- `crypto.timingSafeEqual(Buffer.from(a), Buffer.from(b))`: throws when the
two buffers differ in byte length, otherwise compares them in constant time.
Two UTF-8 encodings are equal exactly when the strings are. -/
def timingSafeEqual (a b : String) : Except Unit Bool :=
  if a.utf8ByteSize = b.utf8ByteSize then Except.ok (decide (a = b))
  else Except.error ()

/-- A line item of the `orders/create` webhook payload. -/
structure LineItem where
  sku : JsField String
  variant_id : JsField Nat
deriving DecidableEq

/-- The parsed webhook body (only the field the handler reads). -/
structure OrderPayload where
  line_items : JsField (List LineItem)
deriving DecidableEq

/-- The `variant` object of a `GET variants/{id}.json` response. -/
structure VariantObj where
  product_id : JsField Nat
deriving DecidableEq

/-- A parsed `GET variants/{id}.json` response body. -/
structure VariantData where
  variant : JsField VariantObj
deriving DecidableEq

/-- One iteration of the webhook line-item loop, identical in all three
versions up to how results are accumulated (part_001 lines 236-251, part_002
lines 188-203 and 369-384): when the item's SKU is truthy and starts with the
reserved prefix and its `variant_id` is truthy, `GET variants/{id}.json` (the
oracle `lookup`; `Except.error` models a thrown request error, which the loop
catches and logs) and, when the response carries a truthy
`variant.product_id`, yield it.  Returns the lookup calls made for the item
and the resolved product id, if any. -/
def itemResolve (pfx : String) (lookup : Nat → Except Unit (JsField VariantData))
    (li : LineItem) : List Nat × Option Nat :=
  let sku := li.sku.strOr ""
  if sku ≠ "" && jsStartsWith sku pfx then
    match li.variant_id.truthyNat with
    | some v =>
      ( [v],
        match lookup v with
        | Except.ok (JsField.val vdata) =>
          match vdata.variant with
          | JsField.val vo => vo.product_id.truthyNat
          | _ => none
        | _ => none )
    | none => ([], none)
  else ([], none)

/-- `Set.prototype.add`: append when not already present, keeping insertion
order. -/
def setAdd (s : List Nat) (x : Nat) : List Nat := if x ∈ s then s else s ++ [x]

/-- The line-item loop of the current webhook handlers (part_001 lines
234-251, part_002 lines 186-203), which accumulates resolved product ids into
the `toCleanup` JavaScript `Set`: returns the lookup calls in order and the
set's contents in insertion order. -/
def collectCleanupSet (pfx : String) (lookup : Nat → Except Unit (JsField VariantData))
    (calls cleanup : List Nat) : List LineItem → List Nat × List Nat
  | [] => (calls, cleanup)
  | li :: rest =>
    let r := itemResolve pfx lookup li
    collectCleanupSet pfx lookup (calls ++ r.1)
      (match r.2 with | some pid => setAdd cleanup pid | none => cleanup) rest

/-- The line-item loop of the legacy webhook handler (part_002 lines 367-384),
which pushes resolved product ids onto a plain array: no deduplication. -/
def collectCleanupArray (pfx : String) (lookup : Nat → Except Unit (JsField VariantData))
    (items : List LineItem) : List Nat × List Nat :=
  (items.flatMap (fun li => (itemResolve pfx lookup li).1),
   items.filterMap (fun li => (itemResolve pfx lookup li).2))

/-- The per-product delete loop shared by every version (part_001 lines
253-256 and 276-281, part_002 lines 205-212, 235-245, 386-393 and 413-423):
each product id is delete-attempted in order; a failed delete (the oracle
`deleteFails`) is caught and logged and does not stop the loop.  Returns the
delete calls attempted and the ids deleted successfully, both in order. -/
def deleteLoop (deleteFails : Nat → Bool) : List Nat → List Nat × List Nat
  | [] => ([], [])
  | pid :: rest =>
    let r := deleteLoop deleteFails rest
    (pid :: r.1, if deleteFails pid then r.2 else pid :: r.2)

/-- An HTTP answer produced by a route handler, or `crash` when an uncaught
exception escapes the handler and no answer is ever sent. -/
inductive HttpSent where
  | sent : Nat → String → HttpSent
  | crash : HttpSent
deriving DecidableEq

/-- The status code of an answer, when one was sent. -/
def HttpSent.statusOf : HttpSent → Option Nat
  | sent s _ => some s
  | crash => none

/-- What a webhook delivery did: the answer, the `GET variants/{id}.json`
calls and the `DELETE products/{id}.json` calls issued, and the ids whose
delete succeeded. -/
structure WebhookOutcome where
  response : HttpSent
  lookupCalls : List Nat
  deleteCalls : List Nat
  deletedOk : List Nat
deriving DecidableEq

/-- The order-processing stage of the current webhook handler (part_001 lines
231-262, part_002 lines 183-218): `JSON.parse` the raw body (the oracle
`parse`; a parse exception is caught and answered with 500 "Error"), default
a falsy `line_items` to `[]`, resolve matching line items into the
`toCleanup` set, best-effort delete each collected product id, and answer
200 "OK". -/
def processOrder (parse : String → Option OrderPayload)
    (lookup : Nat → Except Unit (JsField VariantData)) (deleteFails : Nat → Bool)
    (pfx rawBody : String) : WebhookOutcome :=
  match parse rawBody with
  | none => ⟨HttpSent.sent 500 "Error", [], [], []⟩
  | some order =>
    let items := order.line_items.orDefault []
    let c := collectCleanupSet pfx lookup [] [] items
    let d := deleteLoop deleteFails c.2
    ⟨HttpSent.sent 200 "OK", c.1, d.1, d.2⟩

/-- The order-processing stage of the legacy webhook handler (part_002 lines
364-399): as `processOrder` but with the array accumulator. -/
def processOrderLegacy (parse : String → Option OrderPayload)
    (lookup : Nat → Except Unit (JsField VariantData)) (deleteFails : Nat → Bool)
    (pfx rawBody : String) : WebhookOutcome :=
  match parse rawBody with
  | none => ⟨HttpSent.sent 500 "Error", [], [], []⟩
  | some order =>
    let items := order.line_items.orDefault []
    let c := collectCleanupArray pfx lookup items
    let d := deleteLoop deleteFails c.2
    ⟨HttpSent.sent 200 "OK", c.1, d.1, d.2⟩

/-- An inbound webhook request: raw body and the `X-Shopify-Hmac-Sha256`
header (`req.get` yields `undefined` when absent). -/
structure WebhookReq where
  rawBody : String
  hmacHeader : JsField String
deriving DecidableEq

/-- `POST /webhooks/orders/create` of the current servers (part_001 lines
215-263, part_002 lines 167-219): when `SHOPIFY_WEBHOOK_SECRET` is configured
(non-empty), recompute the base64 HMAC-SHA256 of the raw body (the oracle
`hmacFn secret body`) and compare it against the header with
`crypto.timingSafeEqual` inside a try/catch — a mismatch answers
401 "HMAC mismatch", a thrown comparison error (buffers of unequal length)
answers 401 "HMAC error"; otherwise, or when no secret is configured,
the order is processed. -/
def webhookHandler (hmacFn : String → String → String)
    (parse : String → Option OrderPayload)
    (lookup : Nat → Except Unit (JsField VariantData)) (deleteFails : Nat → Bool)
    (secret pfx : String) (req : WebhookReq) : WebhookOutcome :=
  let hmac := req.hmacHeader.strOr ""
  if secret ≠ "" then
    match timingSafeEqual (hmacFn secret req.rawBody) hmac with
    | Except.ok true => processOrder parse lookup deleteFails pfx req.rawBody
    | Except.ok false => ⟨HttpSent.sent 401 "HMAC mismatch", [], [], []⟩
    | Except.error _ => ⟨HttpSent.sent 401 "HMAC error", [], [], []⟩
  else processOrder parse lookup deleteFails pfx req.rawBody

/-- `POST /webhooks/orders/create` of the legacy server (part_002 lines
353-400): the HMAC comparison has no try/catch, so a thrown comparison error
escapes the handler (`crash`); and the cleanup accumulator is an array. -/
def webhookHandlerLegacy (hmacFn : String → String → String)
    (parse : String → Option OrderPayload)
    (lookup : Nat → Except Unit (JsField VariantData)) (deleteFails : Nat → Bool)
    (secret pfx : String) (req : WebhookReq) : WebhookOutcome :=
  let hmac := req.hmacHeader.strOr ""
  if secret ≠ "" then
    match timingSafeEqual (hmacFn secret req.rawBody) hmac with
    | Except.ok true => processOrderLegacy parse lookup deleteFails pfx req.rawBody
    | Except.ok false => ⟨HttpSent.sent 401 "HMAC mismatch", [], [], []⟩
    | Except.error _ => ⟨HttpSent.crash, [], [], []⟩
  else processOrderLegacy parse lookup deleteFails pfx req.rawBody

/-- The character class `[a-zA-Z]` of the data-URI regexp. -/
def isAsciiLetter (c : Char) : Bool :=
  ('a' ≤ c && c ≤ 'z') || ('A' ≤ c && c ≤ 'Z')

/-- `imageBase64.replace(/^data:image\/[a-zA-Z]+;base64,/, '')` of part_001
line 195: when the string begins with `data:image/`, one or more ASCII
letters and `;base64,`, remove that prefix; otherwise return the string
unchanged.  (`"data:image/"` has 11 characters and `";base64,"` has 8; the
quantifier `[a-zA-Z]+` cannot match `;`, so the greedy character scan is
exact.) -/
def stripDataUri (s : String) : String :=
  if jsStartsWith s "data:image/" then
    let rest := jsDrop s 11
    let letters := rest.data.takeWhile isAsciiLetter
    if letters ≠ [] && jsStartsWith (jsDrop rest letters.length) ";base64," then
      jsDrop (jsDrop rest letters.length) 8
    else s
  else s

/-- A variant object of the product-creation request body. -/
structure ReqVariant where
  option1 : String
  price : String
  sku : String
deriving DecidableEq

/-- An image object of the product-creation request body: part_001 sends the
base64 data as `attachment`, part_002 sends an already-hosted `src` URL. -/
inductive ProductImage where
  | attachment : String → ProductImage
  | src : String → ProductImage
deriving DecidableEq

/-- The `product` object POSTed to `products.json`. -/
structure ProductPayload where
  title : JsField String
  vendor : String
  product_type : String
  published : Bool
  images : List ProductImage
  variants : List ReqVariant
deriving DecidableEq

/-- The product-creation request body of part_001's
`createHiddenProductWithImage` (lines 144-166): unpublished product, the
base64 image inline as `attachment`, and a single variant whose SKU is
`TEMP_SKU_PREFIX + Date.now()` (`now` is the millisecond clock reading) and
whose price is `String(price || '499.00')` (together with the destructuring
default, any falsy price becomes `"499.00"`). -/
def buildProductBody (pfx : String) (now : Nat) (title : JsField String)
    (imageBase64 : String) (price : JsField String) : ProductPayload :=
  { title := title, vendor := "Next Print", product_type := "Custom Jersey",
    published := false,
    images := [ProductImage.attachment imageBase64],
    variants := [{ option1 := "Default", price := price.strOr "499.00",
                   sku := pfx ++ toString now }] }

/-- The product-creation request body of part_002's
`createHiddenProductWithImage` (lines 94-110): as `buildProductBody` but the
image is the uploaded file URL as `src`. -/
def buildProductBodySrc (pfx : String) (now : Nat) (title : JsField String)
    (fileUrl : String) (price : JsField String) : ProductPayload :=
  { title := title, vendor := "Next Print", product_type := "Custom Jersey",
    published := false,
    images := [ProductImage.src fileUrl],
    variants := [{ option1 := "Default", price := price.strOr "499.00",
                   sku := pfx ++ toString now }] }

/-- A variant object of a `products.json` creation response. -/
structure RespVariant where
  id : JsField Nat
  sku : JsField String
deriving DecidableEq

/-- A product object of a `products.json` creation response. -/
structure RespProduct where
  id : Nat
  variants : JsField (List RespVariant)
deriving DecidableEq

/-- A parsed `products.json` creation response body (`null` or a missing
`product` key both fail the `!data || !data.product` guard). -/
structure CreateRespBody where
  product : JsField RespProduct
deriving DecidableEq

/-- part_001's `createHiddenProductWithImage` (lines 144-171): build the
request body, POST it to `products.json` (the oracle `postProduct`;
`Except.error` is a thrown request error) and throw unless the response
carries a truthy `product`.  Returns the body that was sent together with the
outcome, so callers can observe the upstream call. -/
def createHiddenProductWithImage (postProduct : ProductPayload → Except Unit CreateRespBody)
    (pfx : String) (now : Nat) (title : JsField String) (imageBase64 : String)
    (price : JsField String) : ProductPayload × Except Unit RespProduct :=
  let body := buildProductBody pfx now title imageBase64 price
  ( body,
    match postProduct body with
    | Except.error e => Except.error e
    | Except.ok data =>
      match data.product with
      | JsField.val p => Except.ok p
      | _ => Except.error () )

/-- part_002's `createHiddenProductWithImage` (lines 94-115): as above with
the uploaded file URL. -/
def createHiddenProductWithSrc (postProduct : ProductPayload → Except Unit CreateRespBody)
    (pfx : String) (now : Nat) (title : JsField String) (fileUrl : String)
    (price : JsField String) : ProductPayload × Except Unit RespProduct :=
  let body := buildProductBodySrc pfx now title fileUrl price
  ( body,
    match postProduct body with
    | Except.error e => Except.error e
    | Except.ok data =>
      match data.product with
      | JsField.val p => Except.ok p
      | _ => Except.error () )

/-- The `file` object of a `files.json` upload response. -/
structure FileObj where
  url : JsField String
deriving DecidableEq

/-- A parsed `files.json` upload response body. -/
structure UploadRespBody where
  file : JsField FileObj
deriving DecidableEq

/-- part_002's `uploadFileToShopify` (lines 76-89): POST
`{file: {attachment, filename}}` to `files.json` (the oracle `postFile`) and
throw unless the response carries a truthy `file.url` (the empty string is
falsy and also fails the guard). -/
def uploadFileToShopify (postFile : String → String → Except Unit UploadRespBody)
    (base64 fname : String) : Except Unit String :=
  match postFile base64 fname with
  | Except.error e => Except.error e
  | Except.ok data =>
    match data.file with
    | JsField.val f =>
      match f.url with
      | JsField.val u => if u = "" then Except.error () else Except.ok u
      | _ => Except.error ()
    | _ => Except.error ()

/-- The body of a `POST /api/create-custom-product` request. -/
structure CreateReqBody where
  title : JsField String
  imageBase64 : JsField String
  price : JsField String
deriving DecidableEq

/-- What a create-custom-product request did: HTTP status, the `success` flag
and `sku` of the JSON answer, and the upstream calls issued (`uploadCalls`
lists the base64 attachments POSTed to `files.json`, `productCalls` the
bodies POSTed to `products.json`). -/
structure CreateOutcome where
  status : Nat
  success : Bool
  sku : Option String
  uploadCalls : List String
  productCalls : List ProductPayload
deriving DecidableEq

/-- `POST /api/create-custom-product` of part_001 (lines 184-209): a falsy
`imageBase64` is rejected with 400 before any Shopify call; otherwise a
leading data-URI prefix is stripped, the hidden product is created from the
stripped base64, and the answer carries the created first variant's `sku`
(200 via `res.json`); any thrown error is answered with 500. -/
def createCustomProduct (postProduct : ProductPayload → Except Unit CreateRespBody)
    (pfx : String) (now : Nat) (body : CreateReqBody) : CreateOutcome :=
  match body.imageBase64.truthyStr with
  | none =>
    { status := 400, success := false, sku := none, uploadCalls := [], productCalls := [] }
  | some img =>
    let rawBase64 := stripDataUri img
    let r := createHiddenProductWithImage postProduct pfx now
      (body.title.orMissing "Custom Jersey") rawBase64 body.price
    match r.2 with
    | Except.error _ =>
      { status := 500, success := false, sku := none, uploadCalls := [], productCalls := [r.1] }
    | Except.ok p =>
      { status := 200, success := true,
        sku :=
          match (p.variants.orDefault []).head? with
          | some v => match v.sku with | JsField.val s => some s | _ => none
          | none => none,
        uploadCalls := [], productCalls := [r.1] }

/-- `POST /api/create-custom-product` of part_002's first version (lines
128-161): a falsy `imageBase64` is rejected with 400 before any Shopify call;
otherwise `imageBase64` is uploaded **as-is** (no data-URI stripping) to
`files.json` under a generated filename, the hidden product is created with
the returned file URL, and the answer carries the created first variant's
`sku`; any thrown error is answered with 500. -/
def createCustomProductUpload (postFile : String → String → Except Unit UploadRespBody)
    (postProduct : ProductPayload → Except Unit CreateRespBody)
    (pfx : String) (now : Nat) (body : CreateReqBody) : CreateOutcome :=
  match body.imageBase64.truthyStr with
  | none =>
    { status := 400, success := false, sku := none, uploadCalls := [], productCalls := [] }
  | some img =>
    let fname := "custom-" ++ toString now ++ ".jpg"
    match uploadFileToShopify postFile img fname with
    | Except.error _ =>
      { status := 500, success := false, sku := none, uploadCalls := [img], productCalls := [] }
    | Except.ok fileUrl =>
      let r := createHiddenProductWithSrc postProduct pfx now
        (body.title.orMissing "Custom Jersey") fileUrl body.price
      match r.2 with
      | Except.error _ =>
        { status := 500, success := false, sku := none, uploadCalls := [img], productCalls := [r.1] }
      | Except.ok p =>
        { status := 200, success := true,
          sku :=
            match (p.variants.orDefault []).head? with
            | some v => match v.sku with | JsField.val s => some s | _ => none
            | none => none,
          uploadCalls := [img], productCalls := [r.1] }

/-- A variant object of a `products.json` listing response. -/
structure AdminVariant where
  sku : JsField String
deriving DecidableEq

/-- A product object of a `products.json` listing response. -/
structure AdminProduct where
  id : Nat
  variants : JsField (List AdminVariant)
deriving DecidableEq

/-- A parsed `products.json?limit=250&published_status=unpublished` listing
response body. -/
structure ListRespBody where
  products : JsField (List AdminProduct)
deriving DecidableEq

/-- `p.variants && p.variants.some(v => v.sku && v.sku.startsWith(TEMP_SKU_PREFIX))`
(part_001 line 277, part_002 lines 236 and 414). -/
def shouldDeleteProduct (pfx : String) (p : AdminProduct) : Bool :=
  (p.variants.orDefault []).any (fun v =>
    let s := v.sku.strOr ""
    s ≠ "" && jsStartsWith s pfx)

/-- The `x-admin-key` comparison `req.get('x-admin-key') !== ADMIN_KEY`:
a missing header is `undefined`, which never strictly equals a string key. -/
def adminKeyMatches (adminKey : String) (hdr : JsField String) : Bool :=
  match hdr with
  | JsField.val s => s = adminKey
  | _ => false

/-- What an admin cleanup request did: HTTP status, the `success`,
`deletedCount` and `deleted` fields of the JSON answer, the number of
listing calls and the delete calls issued. -/
structure CleanupOutcome where
  status : Nat
  success : Bool
  deletedCount : Nat
  deleted : List Nat
  listCalls : Nat
  deleteCalls : List Nat
deriving DecidableEq

/-- The sweep stage of `POST /admin/cleanup-temp-products` (part_001 lines
272-283): list unpublished products (the oracle `listProducts`; a thrown
request error is caught by the route's try/catch and answered with 500),
default a falsy `products` to `[]`, best-effort delete every product having a
reserved-prefix variant SKU, and answer 200 with the ids actually deleted. -/
def cleanupSweep (listProducts : Except Unit ListRespBody) (deleteFails : Nat → Bool)
    (pfx : String) : CleanupOutcome :=
  match listProducts with
  | Except.error _ =>
    { status := 500, success := false, deletedCount := 0, deleted := [],
      listCalls := 1, deleteCalls := [] }
  | Except.ok lr =>
    let products := lr.products.orDefault []
    let targets := (products.filter (fun p => shouldDeleteProduct pfx p)).map (fun p => p.id)
    let d := deleteLoop deleteFails targets
    { status := 200, success := true, deletedCount := d.2.length, deleted := d.2,
      listCalls := 1, deleteCalls := d.1 }

/-- `POST /admin/cleanup-temp-products` (part_001 lines 268-288, part_002
lines 225-252 and 402-430): when `ADMIN_KEY` is configured (non-empty) and
the `x-admin-key` header does not strictly equal it, answer 401 Unauthorized
before any Shopify call; otherwise run the sweep. -/
def adminCleanup (listProducts : Except Unit ListRespBody) (deleteFails : Nat → Bool)
    (adminKey pfx : String) (hdr : JsField String) : CleanupOutcome :=
  if adminKey ≠ "" && !(adminKeyMatches adminKey hdr) then
    { status := 401, success := false, deletedCount := 0, deleted := [],
      listCalls := 0, deleteCalls := [] }
  else cleanupSweep listProducts deleteFails pfx

/-! Concrete oracles used by the closed counterexamples and witnesses. -/

/-- A variant-lookup oracle: variant 5 belongs to product 77, any other
lookup throws. -/
def lookupEx : Nat → Except Unit (JsField VariantData) :=
  fun v => if v = 5 then Except.ok (JsField.val ⟨JsField.val ⟨JsField.val 77⟩⟩)
    else Except.error ()

/-- A JSON.parse oracle for webhook bodies: `"order"` parses to an order with
two line items that both carry a reserved-prefix SKU and variant 5;
`"noitems"` parses to an order without a `line_items` field; `"nullitems"`
parses to an order whose `line_items` is `null`; everything else fails. -/
def parseEx : String → Option OrderPayload :=
  fun s =>
    if s = "order" then
      some ⟨JsField.val
        [⟨JsField.val "CUST-170", JsField.val 5⟩,
         ⟨JsField.val "CUST-171", JsField.val 5⟩]⟩
    else if s = "noitems" then some ⟨JsField.missing⟩
    else if s = "nullitems" then some ⟨JsField.null⟩
    else none

/-- A delete oracle on which no delete throws. -/
def noDeleteFail : Nat → Bool := fun _ => false

/-- A delete oracle on which every delete throws. -/
def allDeleteFail : Nat → Bool := fun _ => true

/-- An HMAC oracle returning a fixed two-character digest. -/
def hmacConst : String → String → String := fun _ _ => "AA"

/-- A `products.json` oracle that echoes the submitted variants back, the way
Shopify answers a successful creation. -/
def postProductEcho : ProductPayload → Except Unit CreateRespBody :=
  fun b => Except.ok ⟨JsField.val ⟨7,
    JsField.val (b.variants.map (fun v => ⟨JsField.val 9, JsField.val v.sku⟩))⟩⟩

/-- A `files.json` oracle answering a fixed hosted URL. -/
def postFileEx : String → String → Except Unit UploadRespBody :=
  fun _ _ => Except.ok ⟨JsField.val ⟨JsField.val "https://cdn.example/f.jpg"⟩⟩

/-- A product-listing oracle: product 31 has a reserved-prefix variant SKU,
product 32 does not. -/
def listProductsEx : Except Unit ListRespBody :=
  Except.ok ⟨JsField.val
    [⟨31, JsField.val [⟨JsField.val "CUST-9"⟩]⟩,
     ⟨32, JsField.val [⟨JsField.val "REG-1"⟩]⟩]⟩

/-- The order produced by `parseEx "order"`. -/
def orderEx : OrderPayload :=
  ⟨JsField.val
    [⟨JsField.val "CUST-170", JsField.val 5⟩,
     ⟨JsField.val "CUST-171", JsField.val 5⟩]⟩

/-- A create request body without an `imageBase64` field. -/
def bodyNoImage : CreateReqBody :=
  ⟨JsField.val "Custom Jersey", JsField.missing, JsField.missing⟩

/-- A create request body with a plain base64 image. -/
def bodyImg : CreateReqBody :=
  ⟨JsField.val "Jersey", JsField.val "QUJD", JsField.val "499.00"⟩

/-! ### Helper lemmas -/

/-- The delete loop attempts every product id, whatever the delete oracle
does: a failed delete never stops the remaining attempts. -/
theorem deleteLoop_fst (deleteFails : Nat → Bool) (l : List Nat) :
    (deleteLoop deleteFails l).1 = l := by
  induction l with
  | nil => rfl
  | cons pid rest ih => simp [deleteLoop, ih]

theorem mem_setAdd (s : List Nat) (x y : Nat) : y ∈ setAdd s x ↔ y ∈ s ∨ y = x := by
  unfold setAdd
  by_cases h : x ∈ s
  · simp only [if_pos h]
    constructor
    · exact Or.inl
    · rintro (hy | rfl)
      · exact hy
      · exact h
  · simp only [if_neg h, List.mem_append, List.mem_singleton]

theorem nodup_setAdd (s : List Nat) (x : Nat) (h : s.Nodup) : (setAdd s x).Nodup := by
  unfold setAdd
  by_cases hx : x ∈ s
  · simpa [hx] using h
  · simp [List.nodup_append, h, hx]

/-- Membership in the webhook cleanup `Set`: a product id is collected iff it
is already in the accumulator or some line item resolves to it. -/
theorem collectCleanupSet_snd_mem (pfx : String)
    (lookup : Nat → Except Unit (JsField VariantData)) (items : List LineItem) :
    ∀ (calls cleanup : List Nat) (pid : Nat),
      pid ∈ (collectCleanupSet pfx lookup calls cleanup items).2 ↔
        pid ∈ cleanup ∨
          pid ∈ items.filterMap (fun li => (itemResolve pfx lookup li).2) := by
  induction items with
  | nil =>
    intro calls cleanup pid
    simp [collectCleanupSet]
  | cons li rest ih =>
    intro calls cleanup pid
    simp only [collectCleanupSet]
    cases hr : (itemResolve pfx lookup li).2 with
    | none =>
      rw [ih]
      simp [List.filterMap_cons, hr]
    | some q =>
      rw [ih, mem_setAdd]
      simp only [List.filterMap_cons, hr, List.mem_cons]
      tauto

/-- The webhook cleanup `Set` holds no duplicates. -/
theorem collectCleanupSet_snd_nodup (pfx : String)
    (lookup : Nat → Except Unit (JsField VariantData)) (items : List LineItem) :
    ∀ (calls cleanup : List Nat), cleanup.Nodup →
      ((collectCleanupSet pfx lookup calls cleanup items).2).Nodup := by
  induction items with
  | nil =>
    intro calls cleanup h
    simpa [collectCleanupSet] using h
  | cons li rest ih =>
    intro calls cleanup h
    simp only [collectCleanupSet]
    cases hr : (itemResolve pfx lookup li).2 with
    | none => exact ih _ _ h
    | some q => exact ih _ _ (nodup_setAdd _ _ h)

theorem count_of_nodup (l : List Nat) (h : l.Nodup) (pid : Nat) :
    l.count pid = if pid ∈ l then 1 else 0 := by
  by_cases hm : pid ∈ l
  · rw [if_pos hm]
    exact List.count_eq_one_of_mem h hm
  · rw [if_neg hm]
    exact List.count_eq_zero_of_not_mem hm

/-! ### The claims -/

/-- Claim C3, counterexample: the legacy request helper (part_002 lines
280-291) performs no HTTP status check, so a 404 answer whose body parses
returns the parsed response to the caller instead of failing — the claim is
false of that helper. -/
theorem shopifyRequestLegacy_returns_despite_error_status :
    shopifyRequestLegacy (fun s => if s = "{}" then some 0 else none)
        ⟨404, "{}"⟩ = Except.ok 0 ∧
      statusOk 404 = false :=
  ⟨rfl, by decide⟩

/-- Claim C3 (amended): the request helpers of part_001 (lines 25-48) and of
part_002's first version (lines 34-70) fail on every non-success HTTP status
with an error carrying the status and the raw response body, never returning
the parsed response; the legacy helper of part_002 (lines 280-291) has no
status check and returns the parsed body even on a non-success status. -/
theorem shopifyRequest_error_on_bad_status {α : Type} (parse : String → Option α)
    (resp : HttpResp) (h : statusOk resp.status = false) :
    shopifyRequest parse resp =
      Except.error (ShopifyError.apiError resp.status resp.body) := by
  unfold shopifyRequest
  rw [h]
  rfl

theorem shopifyRequest_error_on_bad_status_witness :
    statusOk 500 = false ∧
      shopifyRequest (fun (_ : String) => some 0) ⟨500, "Internal Server Error"⟩ =
        Except.error (ShopifyError.apiError 500 "Internal Server Error") :=
  ⟨by decide,
   shopifyRequest_error_on_bad_status (fun _ => some 0)
     ⟨500, "Internal Server Error"⟩ (by decide)⟩

/-- Claim C5 (code bug): the variant SKU is `TEMP_SKU_PREFIX + Date.now()`
with no random or monotonic component (part_001 line 162, part_002 lines 106
and 319), so any two create requests handled in the same millisecond —
whatever their titles, images and prices — produce identical SKUs; evaluated
at `Date.now() = 1730000000000` for two distinct requests. -/
theorem sku_collision_in_same_millisecond :
    (∀ (pfx : String) (now : Nat) (t₁ t₂ : JsField String) (i₁ i₂ : String)
        (p₁ p₂ : JsField String),
      (buildProductBody pfx now t₁ i₁ p₁).variants.map ReqVariant.sku =
        (buildProductBody pfx now t₂ i₂ p₂).variants.map ReqVariant.sku) ∧
    (buildProductBody "CUST-" 1730000000000 (JsField.val "Jersey A") "imgA"
        (JsField.val "199.00")).variants.map ReqVariant.sku =
      ["CUST-1730000000000"] ∧
    (buildProductBody "CUST-" 1730000000000 (JsField.val "Jersey B") "imgB"
        (JsField.val "299.00")).variants.map ReqVariant.sku =
      ["CUST-1730000000000"] := by
  refine ⟨fun pfx now t₁ t₂ i₁ i₂ p₁ p₂ => rfl, ?_, ?_⟩ <;> decide

/-- Claim C1, counterexample: the legacy webhook handler (part_002 lines
364-395) pushes resolved product ids onto a plain array, so an order whose
two line items both resolve to product 77 issues two delete calls for that
product — the claim's "exactly one delete call" is false of that handler. -/
theorem legacyWebhook_duplicate_delete_calls :
    (webhookHandlerLegacy hmacConst parseEx lookupEx noDeleteFail "" "CUST-"
        ⟨"order", JsField.missing⟩).deleteCalls = [77, 77] ∧
    ((webhookHandlerLegacy hmacConst parseEx lookupEx noDeleteFail "" "CUST-"
        ⟨"order", JsField.missing⟩).deleteCalls).count 77 = 2 := by
  constructor <;> decide

/-- Claim C1 (amended): the current webhook handlers (part_001 lines 231-258,
part_002 lines 183-214) collect resolved product ids into a `Set`, so each
resolved product receives exactly one delete call — the number of delete
calls for a product id is 1 when some line item resolves to it and 0
otherwise.  (The legacy handler of part_002 lines 364-395 uses an array
instead and issues one delete call per resolving line item.) -/
theorem webhook_deletes_each_product_once (parse : String → Option OrderPayload)
    (lookup : Nat → Except Unit (JsField VariantData)) (deleteFails : Nat → Bool)
    (pfx rawBody : String) (order : OrderPayload)
    (hparse : parse rawBody = some order) (pid : Nat) :
    ((processOrder parse lookup deleteFails pfx rawBody).deleteCalls).count pid =
      if pid ∈ (order.line_items.orDefault []).filterMap
          (fun li => (itemResolve pfx lookup li).2) then 1 else 0 := by
  simp only [processOrder, hparse]
  rw [deleteLoop_fst]
  rw [count_of_nodup _
    (collectCleanupSet_snd_nodup pfx lookup (order.line_items.orDefault []) [] []
      List.nodup_nil)]
  simp only [collectCleanupSet_snd_mem, List.not_mem_nil, false_or]

theorem webhook_deletes_each_product_once_witness :
    parseEx "order" = some orderEx ∧
    ((processOrder parseEx lookupEx noDeleteFail "CUST-" "order").deleteCalls).count 77
      = 1 := by
  constructor
  · decide
  · have h := webhook_deletes_each_product_once parseEx lookupEx noDeleteFail "CUST-"
      "order" orderEx (by decide) 77
    rw [h]
    decide

/-- When no secret is configured, or the header equals the recomputed HMAC,
the current webhook handler runs order processing. -/
theorem webhookHandler_auth_pass (hmacFn : String → String → String)
    (parse : String → Option OrderPayload)
    (lookup : Nat → Except Unit (JsField VariantData)) (deleteFails : Nat → Bool)
    (secret pfx : String) (req : WebhookReq)
    (hauth : secret = "" ∨ req.hmacHeader.strOr "" = hmacFn secret req.rawBody) :
    webhookHandler hmacFn parse lookup deleteFails secret pfx req =
      processOrder parse lookup deleteFails pfx req.rawBody := by
  by_cases hs : secret = ""
  · simp [webhookHandler, hs]
  · cases hauth with
    | inl h => exact absurd h hs
    | inr h =>
      simp only [webhookHandler, timingSafeEqual]
      rw [if_pos hs, h, if_pos rfl, decide_eq_true rfl]

/-- When no secret is configured, or the header equals the recomputed HMAC,
the legacy webhook handler runs order processing. -/
theorem webhookHandlerLegacy_auth_pass (hmacFn : String → String → String)
    (parse : String → Option OrderPayload)
    (lookup : Nat → Except Unit (JsField VariantData)) (deleteFails : Nat → Bool)
    (secret pfx : String) (req : WebhookReq)
    (hauth : secret = "" ∨ req.hmacHeader.strOr "" = hmacFn secret req.rawBody) :
    webhookHandlerLegacy hmacFn parse lookup deleteFails secret pfx req =
      processOrderLegacy parse lookup deleteFails pfx req.rawBody := by
  by_cases hs : secret = ""
  · simp [webhookHandlerLegacy, hs]
  · cases hauth with
    | inl h => exact absurd h hs
    | inr h =>
      simp only [webhookHandlerLegacy, timingSafeEqual]
      rw [if_pos hs, h, if_pos rfl, decide_eq_true rfl]

/-- Claim C2, counterexample: in the legacy webhook handler (part_002 lines
353-362) `crypto.timingSafeEqual` is not wrapped in try/catch; with a secret
configured and a missing signature header the comparison throws (the buffers
have lengths 2 and 0) and the exception escapes the handler — no 401 is sent,
the handler crashes, so "the comparison itself errors → 401" is false of that
handler. -/
theorem legacyWebhook_hmac_error_crashes :
    (webhookHandlerLegacy hmacConst parseEx lookupEx noDeleteFail "sec" "CUST-"
        ⟨"order", JsField.missing⟩).response = HttpSent.crash ∧
    HttpSent.statusOf (webhookHandlerLegacy hmacConst parseEx lookupEx noDeleteFail
        "sec" "CUST-" ⟨"order", JsField.missing⟩).response ≠ some 401 := by
  constructor <;> decide

/-- Claim C2 (amended): in the current webhook handlers (part_001 lines
215-229, part_002 lines 167-181), with a webhook secret configured, a header
that does not equal the recomputed base64 HMAC of the raw body answers 401
with no variant-lookup and no product-delete calls — both when the
constant-time comparison returns false (equal buffer lengths) and when it
throws (unequal lengths, caught by the try/catch); a header equal to the
recomputed HMAC proceeds to order processing.  (In the legacy handler of
part_002 lines 353-362 a comparison error is uncaught and no 401 is sent.) -/
theorem webhook_hmac_gate (hmacFn : String → String → String)
    (parse : String → Option OrderPayload)
    (lookup : Nat → Except Unit (JsField VariantData)) (deleteFails : Nat → Bool)
    (secret pfx : String) (req : WebhookReq) (hsec : secret ≠ "") :
    (req.hmacHeader.strOr "" ≠ hmacFn secret req.rawBody →
      HttpSent.statusOf
          (webhookHandler hmacFn parse lookup deleteFails secret pfx req).response
        = some 401 ∧
      (webhookHandler hmacFn parse lookup deleteFails secret pfx req).lookupCalls = [] ∧
      (webhookHandler hmacFn parse lookup deleteFails secret pfx req).deleteCalls = []) ∧
    (req.hmacHeader.strOr "" = hmacFn secret req.rawBody →
      webhookHandler hmacFn parse lookup deleteFails secret pfx req =
        processOrder parse lookup deleteFails pfx req.rawBody) := by
  constructor
  · intro hne
    simp only [webhookHandler, timingSafeEqual]
    rw [if_pos hsec]
    by_cases hlen : (hmacFn secret req.rawBody).utf8ByteSize =
        (req.hmacHeader.strOr "").utf8ByteSize
    · rw [if_pos hlen, decide_eq_false (fun h => hne h.symm)]
      exact ⟨rfl, rfl, rfl⟩
    · rw [if_neg hlen]
      exact ⟨rfl, rfl, rfl⟩
  · intro heq
    exact webhookHandler_auth_pass hmacFn parse lookup deleteFails secret pfx req
      (Or.inr heq)

theorem webhook_hmac_gate_witness :
    ("sec" ≠ "" ∧
      (WebhookReq.mk "order" JsField.missing).hmacHeader.strOr ""
        ≠ hmacConst "sec" "order") ∧
    HttpSent.statusOf (webhookHandler hmacConst parseEx lookupEx noDeleteFail "sec"
        "CUST-" ⟨"order", JsField.missing⟩).response = some 401 ∧
    (webhookHandler hmacConst parseEx lookupEx noDeleteFail "sec" "CUST-"
        ⟨"order", JsField.missing⟩).lookupCalls = [] ∧
    (webhookHandler hmacConst parseEx lookupEx noDeleteFail "sec" "CUST-"
        ⟨"order", JsField.missing⟩).deleteCalls = [] := by
  refine ⟨⟨by decide, by decide⟩, ?_⟩
  exact (webhook_hmac_gate hmacConst parseEx lookupEx noDeleteFail "sec" "CUST-"
    ⟨"order", JsField.missing⟩ (by decide)).1 (by decide)

/-- Claim C6: once the signature check has passed and the body parses as
JSON, the current webhook handler answers 200 "OK" whatever the delete oracle
does, and its delete attempts are exactly the collected product ids,
independent of which deletes fail — each delete sits in its own try/catch, so
one failure never prevents the remaining attempts (part_001 lines 253-262,
part_002 lines 205-218). -/
theorem webhook_200_despite_delete_failures (hmacFn : String → String → String)
    (parse : String → Option OrderPayload)
    (lookup : Nat → Except Unit (JsField VariantData)) (deleteFails : Nat → Bool)
    (secret pfx : String) (req : WebhookReq) (order : OrderPayload)
    (hauth : secret = "" ∨ req.hmacHeader.strOr "" = hmacFn secret req.rawBody)
    (hparse : parse req.rawBody = some order) :
    (webhookHandler hmacFn parse lookup deleteFails secret pfx req).response =
      HttpSent.sent 200 "OK" ∧
    (webhookHandler hmacFn parse lookup deleteFails secret pfx req).deleteCalls =
      (collectCleanupSet pfx lookup [] [] (order.line_items.orDefault [])).2 := by
  rw [webhookHandler_auth_pass hmacFn parse lookup deleteFails secret pfx req hauth]
  unfold processOrder
  rw [hparse]
  exact ⟨rfl, deleteLoop_fst deleteFails _⟩

theorem webhook_200_despite_delete_failures_witness :
    parseEx "order" = some orderEx ∧
    (webhookHandler hmacConst parseEx lookupEx allDeleteFail "" "CUST-"
        ⟨"order", JsField.missing⟩).response = HttpSent.sent 200 "OK" ∧
    (webhookHandler hmacConst parseEx lookupEx allDeleteFail "" "CUST-"
        ⟨"order", JsField.missing⟩).deleteCalls = [77] ∧
    (webhookHandler hmacConst parseEx lookupEx allDeleteFail "" "CUST-"
        ⟨"order", JsField.missing⟩).deletedOk = [] := by
  refine ⟨by decide, ?_, ?_, by decide⟩
  · exact (webhook_200_despite_delete_failures hmacConst parseEx lookupEx allDeleteFail
      "" "CUST-" ⟨"order", JsField.missing⟩ orderEx (Or.inl rfl) (by decide)).1
  · rw [(webhook_200_despite_delete_failures hmacConst parseEx lookupEx allDeleteFail
      "" "CUST-" ⟨"order", JsField.missing⟩ orderEx (Or.inl rfl) (by decide)).2]
    decide

/-- Claim C10: a webhook body that parses but whose `line_items` field is
missing or `null` is defaulted to the empty list by
`bodyJson.line_items || []`: both the current and the legacy handler make no
variant-lookup and no delete calls and answer 200 "OK" (part_001 lines
231-258, part_002 lines 183-214 and 364-395). -/
theorem webhook_no_line_items_ok (hmacFn : String → String → String)
    (parse : String → Option OrderPayload)
    (lookup : Nat → Except Unit (JsField VariantData)) (deleteFails : Nat → Bool)
    (secret pfx : String) (req : WebhookReq) (order : OrderPayload)
    (hauth : secret = "" ∨ req.hmacHeader.strOr "" = hmacFn secret req.rawBody)
    (hparse : parse req.rawBody = some order)
    (hli : order.line_items = JsField.missing ∨ order.line_items = JsField.null) :
    webhookHandler hmacFn parse lookup deleteFails secret pfx req =
      ⟨HttpSent.sent 200 "OK", [], [], []⟩ ∧
    webhookHandlerLegacy hmacFn parse lookup deleteFails secret pfx req =
      ⟨HttpSent.sent 200 "OK", [], [], []⟩ := by
  have h0 : order.line_items.orDefault [] = ([] : List LineItem) := by
    cases hli with
    | inl h => rw [h]; rfl
    | inr h => rw [h]; rfl
  constructor
  · rw [webhookHandler_auth_pass hmacFn parse lookup deleteFails secret pfx req hauth]
    simp only [processOrder, hparse, h0]
    rfl
  · rw [webhookHandlerLegacy_auth_pass hmacFn parse lookup deleteFails secret pfx req
      hauth]
    simp only [processOrderLegacy, hparse, h0]
    rfl

theorem webhook_no_line_items_ok_witness :
    parseEx "noitems" = some ⟨JsField.missing⟩ ∧
    webhookHandler hmacConst parseEx lookupEx noDeleteFail "" "CUST-"
      ⟨"noitems", JsField.missing⟩ = ⟨HttpSent.sent 200 "OK", [], [], []⟩ := by
  refine ⟨by decide, ?_⟩
  exact (webhook_no_line_items_ok hmacConst parseEx lookupEx noDeleteFail "" "CUST-"
    ⟨"noitems", JsField.missing⟩ ⟨JsField.missing⟩ (Or.inl rfl) (by decide)
    (Or.inl rfl)).1

/-- Claim C7: a create request whose body lacks the `imageBase64` field is
rejected with 400 and `success:false` before any Shopify call, in both
create-route versions (part_001 lines 184-197, part_002 lines 128-144): no
upload and no product-creation call is issued. -/
theorem create_missing_image_rejected
    (postFile : String → String → Except Unit UploadRespBody)
    (postProduct : ProductPayload → Except Unit CreateRespBody)
    (pfx : String) (now : Nat) (body : CreateReqBody)
    (hmiss : body.imageBase64 = JsField.missing) :
    (createCustomProduct postProduct pfx now body).status = 400 ∧
    (createCustomProduct postProduct pfx now body).success = false ∧
    (createCustomProduct postProduct pfx now body).productCalls = [] ∧
    (createCustomProductUpload postFile postProduct pfx now body).status = 400 ∧
    (createCustomProductUpload postFile postProduct pfx now body).success = false ∧
    (createCustomProductUpload postFile postProduct pfx now body).uploadCalls = [] ∧
    (createCustomProductUpload postFile postProduct pfx now body).productCalls = [] := by
  unfold createCustomProduct createCustomProductUpload
  rw [hmiss]
  exact ⟨rfl, rfl, rfl, rfl, rfl, rfl, rfl⟩

theorem create_missing_image_rejected_witness :
    bodyNoImage.imageBase64 = JsField.missing ∧
    (createCustomProduct postProductEcho "CUST-" 1730 bodyNoImage).status = 400 ∧
    (createCustomProduct postProductEcho "CUST-" 1730 bodyNoImage).productCalls = [] ∧
    (createCustomProductUpload postFileEx postProductEcho "CUST-" 1730
        bodyNoImage).uploadCalls = [] := by
  refine ⟨rfl, ?_, ?_, ?_⟩
  · exact (create_missing_image_rejected postFileEx postProductEcho "CUST-" 1730
      bodyNoImage rfl).1
  · exact (create_missing_image_rejected postFileEx postProductEcho "CUST-" 1730
      bodyNoImage rfl).2.2.1
  · exact (create_missing_image_rejected postFileEx postProductEcho "CUST-" 1730
      bodyNoImage rfl).2.2.2.2.2.1

/-- Claim C9: the admin cleanup route (part_001 lines 268-288, part_002 lines
225-252 and 402-430): with no `ADMIN_KEY` configured the request proceeds
straight to the sweep; with a key configured, a missing or mismatched
`x-admin-key` header answers 401 Unauthorized with no listing and no delete
calls. -/
theorem admin_cleanup_auth (listProducts : Except Unit ListRespBody)
    (deleteFails : Nat → Bool) (adminKey pfx : String) (hdr : JsField String) :
    (adminKey = "" →
      adminCleanup listProducts deleteFails adminKey pfx hdr =
        cleanupSweep listProducts deleteFails pfx) ∧
    (adminKey ≠ "" → (∀ s, hdr = JsField.val s → s ≠ adminKey) →
      (adminCleanup listProducts deleteFails adminKey pfx hdr).status = 401 ∧
      (adminCleanup listProducts deleteFails adminKey pfx hdr).success = false ∧
      (adminCleanup listProducts deleteFails adminKey pfx hdr).listCalls = 0 ∧
      (adminCleanup listProducts deleteFails adminKey pfx hdr).deleteCalls = []) := by
  constructor
  · intro h
    subst h
    unfold adminCleanup
    rw [if_neg]
    simp
  · intro hk hhdr
    have hm : adminKeyMatches adminKey hdr = false := by
      cases hdr with
      | val s => exact decide_eq_false (hhdr s rfl)
      | missing => rfl
      | null => rfl
    have hcond : (decide (adminKey ≠ "") && !adminKeyMatches adminKey hdr) = true := by
      rw [hm, decide_eq_true hk]
      rfl
    unfold adminCleanup
    rw [if_pos hcond]
    exact ⟨rfl, rfl, rfl, rfl⟩

theorem admin_cleanup_auth_witness :
    (adminCleanup listProductsEx noDeleteFail "" "CUST-" JsField.missing =
      cleanupSweep listProductsEx noDeleteFail "CUST-") ∧
    (adminCleanup listProductsEx noDeleteFail "sekrit" "CUST-" JsField.missing).status
      = 401 ∧
    (adminCleanup listProductsEx noDeleteFail "sekrit" "CUST-"
        JsField.missing).listCalls = 0 ∧
    (adminCleanup listProductsEx noDeleteFail "sekrit" "CUST-"
        JsField.missing).deleteCalls = [] := by
  refine ⟨?_, ?_, ?_, ?_⟩
  · exact (admin_cleanup_auth listProductsEx noDeleteFail "" "CUST-"
      JsField.missing).1 rfl
  · exact ((admin_cleanup_auth listProductsEx noDeleteFail "sekrit" "CUST-"
      JsField.missing).2 (by decide) (fun s h => nomatch h)).1
  · exact ((admin_cleanup_auth listProductsEx noDeleteFail "sekrit" "CUST-"
      JsField.missing).2 (by decide) (fun s h => nomatch h)).2.2.1
  · exact ((admin_cleanup_auth listProductsEx noDeleteFail "sekrit" "CUST-"
      JsField.missing).2 (by decide) (fun s h => nomatch h)).2.2.2

theorem strData_append (a b : String) : (a ++ b).data = a.data ++ b.data := by
  cases a
  cases b
  rfl

theorem jsDrop_data (s : String) (n : Nat) : (jsDrop s n).data = s.data.drop n := rfl

theorem isPrefixOf_append (p t : List Char) : p.isPrefixOf (p ++ t) = true := by
  induction p with
  | nil => simp
  | cons c cs ih => simp [List.isPrefixOf_cons₂, ih]

/-- A run of characters all satisfying `p`, followed by one that does not, is
exactly what `takeWhile p` takes. -/
theorem takeWhile_all_append_cons (p : Char → Bool) (a : List Char) (x : Char)
    (t : List Char) (ha : ∀ c ∈ a, p c = true) (hx : p x = false) :
    (a ++ x :: t).takeWhile p = a := by
  induction a with
  | nil => simp [List.takeWhile_cons, hx]
  | cons c cs ih =>
    have hc : p c = true := ha c (List.mem_cons_self c cs)
    simp only [List.cons_append, List.takeWhile_cons, hc, if_true]
    rw [ih (fun d hd => ha d (List.mem_cons_of_mem c hd))]

/-- What the data-URI regexp replacement computes, characterised on the
character list: a string of the shape
`data:image/` ++ letters ++ `;base64,` ++ tail is stripped down to tail. -/
theorem stripDataUri_data_eq (s : String) (mchars tail : List Char)
    (hs : s.data = "data:image/".data ++ (mchars ++ (";base64,".data ++ tail)))
    (h1 : mchars ≠ []) (h2 : ∀ c ∈ mchars, isAsciiLetter c = true) :
    stripDataUri s = String.mk tail := by
  have hpre1 : jsStartsWith s "data:image/" = true := by
    unfold jsStartsWith
    rw [hs]
    exact isPrefixOf_append _ _
  have hdata11 : (jsDrop s 11).data = mchars ++ (";base64,".data ++ tail) := by
    rw [jsDrop_data, hs]
    rw [show (11 : Nat) = ("data:image/".data).length from rfl]
    exact List.drop_left _ _
  have htake : ((jsDrop s 11).data).takeWhile isAsciiLetter = mchars := by
    rw [hdata11]
    rw [show ";base64,".data ++ tail = ';' :: ("base64,".data ++ tail) from rfl]
    exact takeWhile_all_append_cons isAsciiLetter mchars ';' _ h2 (by decide)
  have hdropm : (jsDrop (jsDrop s 11) mchars.length).data = ";base64,".data ++ tail := by
    rw [jsDrop_data, hdata11]
    exact List.drop_left _ _
  have hpre2 : jsStartsWith (jsDrop (jsDrop s 11) mchars.length) ";base64," = true := by
    unfold jsStartsWith
    rw [hdropm]
    exact isPrefixOf_append _ _
  have hcond : (decide (mchars ≠ []) && jsStartsWith (jsDrop (jsDrop s 11) mchars.length)
      ";base64,") = true := by
    rw [decide_eq_true h1, hpre2]
    rfl
  have hfin : ((jsDrop (jsDrop s 11) mchars.length).data).drop 8 = tail := by
    rw [hdropm]
    rw [show (8 : Nat) = (";base64,".data).length from rfl]
    exact List.drop_left _ _
  unfold stripDataUri
  rw [if_pos hpre1]
  simp only [htake]
  rw [if_pos hcond]
  exact congrArg String.mk hfin

theorem dataUriString_ne_empty (mime rest : String) :
    ("data:image/" ++ (mime ++ (";base64," ++ rest))) ≠ "" := by
  intro h
  have hd := congrArg String.data h
  rw [strData_append] at hd
  exact absurd (List.append_eq_nil.mp hd).1 (by decide)

/-- Claim C4, counterexample: the part_002 create route (lines 128-147, and
likewise lines 334-343) uploads `imageBase64` to `files.json` exactly as
received: with `imageBase64 = "data:image/png;base64,QUJD"` the attachment
POSTed upstream still carries the full data-URI prefix — nothing was stripped
before use, so the claim is false of those handlers. -/
theorem upload_keeps_data_uri :
    (createCustomProductUpload postFileEx postProductEcho "CUST-" 1730
        ⟨JsField.val "Jersey", JsField.val "data:image/png;base64,QUJD",
         JsField.val "499.00"⟩).uploadCalls = ["data:image/png;base64,QUJD"] ∧
    jsStartsWith "data:image/png;base64,QUJD" "data:image/" = true := by
  constructor <;> decide

/-- Claim C4 (amended): part_001's create route (lines 184-197) strips a
leading `data:image/<letters>;base64,` prefix from `imageBase64` before the
product-creation call — the body POSTed to `products.json` carries only the
payload after the prefix as its image attachment.  (The part_002 routes,
lines 128-147 and 334-343, pass `imageBase64` to the upload unmodified — see
the counterexample.) -/
theorem create_strips_data_uri (postProduct : ProductPayload → Except Unit CreateRespBody)
    (pfx : String) (now : Nat) (body : CreateReqBody) (mime rest : String)
    (himg : body.imageBase64 =
      JsField.val ("data:image/" ++ (mime ++ (";base64," ++ rest))))
    (h1 : mime.data ≠ []) (h2 : ∀ c ∈ mime.data, isAsciiLetter c = true) :
    (createCustomProduct postProduct pfx now body).productCalls =
      [buildProductBody pfx now (body.title.orMissing "Custom Jersey") rest
        body.price] := by
  have himg' : body.imageBase64.truthyStr =
      some ("data:image/" ++ (mime ++ (";base64," ++ rest))) := by
    simp only [himg, JsField.truthyStr,
      if_neg (dataUriString_ne_empty mime rest)]
  have hstrip : stripDataUri ("data:image/" ++ (mime ++ (";base64," ++ rest)))
      = rest :=
    stripDataUri_data_eq _ mime.data rest.data
      (by rw [strData_append, strData_append, strData_append]) h1 h2
  simp only [createCustomProduct, himg', hstrip, createHiddenProductWithImage]
  cases hpp : postProduct (buildProductBody pfx now
      (body.title.orMissing "Custom Jersey") rest body.price) with
  | error e => rfl
  | ok data => cases hdp : data.product <;> simp [hdp]

theorem create_strips_data_uri_witness :
    (⟨JsField.val "Jersey",
        JsField.val ("data:image/" ++ ("png" ++ (";base64," ++ "QUJD"))),
        JsField.val "499.00"⟩ : CreateReqBody).imageBase64 =
      JsField.val ("data:image/" ++ ("png" ++ (";base64," ++ "QUJD"))) ∧
    (createCustomProduct postProductEcho "CUST-" 1730
        ⟨JsField.val "Jersey",
         JsField.val ("data:image/" ++ ("png" ++ (";base64," ++ "QUJD"))),
         JsField.val "499.00"⟩).productCalls =
      [buildProductBody "CUST-" 1730 (JsField.val "Jersey") "QUJD"
        (JsField.val "499.00")] := by
  refine ⟨rfl, ?_⟩
  exact create_strips_data_uri postProductEcho "CUST-" 1730
    ⟨JsField.val "Jersey",
     JsField.val ("data:image/" ++ ("png" ++ (";base64," ++ "QUJD"))),
     JsField.val "499.00"⟩ "png" "QUJD" rfl (by decide) (by decide)

theorem jsStartsWith_append (p t : String) : jsStartsWith (p ++ t) p = true := by
  unfold jsStartsWith
  rw [strData_append]
  exact isPrefixOf_append _ _

/-- Claim C8: both create routes submit a variant SKU of
`TEMP_SKU_PREFIX + Date.now()` and read the `sku` of the 200 answer from the
creation response's first variant; whenever the upstream creation response
echoes the submitted variant SKUs back — the way Shopify answers a successful
`products.json` POST — the returned `sku` of any successful request is the
submitted one and starts with the configured reserved prefix, for part_001's
route (lines 158-204) and for part_002's upload-based route (lines 102-155)
alike. -/
theorem create_success_sku_reserved
    (postFile : String → String → Except Unit UploadRespBody)
    (postProduct : ProductPayload → Except Unit CreateRespBody)
    (pfx : String) (now : Nat) (body : CreateReqBody)
    (hEcho : ∀ b r p, postProduct b = Except.ok r → r.product = JsField.val p →
      (p.variants.orDefault []).map (fun v => v.sku) =
        b.variants.map (fun v => JsField.val v.sku))
    (s : String) :
    ((createCustomProduct postProduct pfx now body).sku = some s →
      s = pfx ++ toString now ∧ jsStartsWith s pfx = true) ∧
    ((createCustomProductUpload postFile postProduct pfx now body).sku = some s →
      s = pfx ++ toString now ∧ jsStartsWith s pfx = true) := by
  constructor
  · intro hs
    have hsku : s = pfx ++ toString now := by
      unfold createCustomProduct at hs
      cases ht : body.imageBase64.truthyStr with
      | none => simp [ht] at hs
      | some img =>
        simp only [ht, createHiddenProductWithImage] at hs
        cases hpp : postProduct (buildProductBody pfx now
            (body.title.orMissing "Custom Jersey") (stripDataUri img) body.price) with
        | error e => simp [hpp] at hs
        | ok data =>
          simp only [hpp] at hs
          cases hdp : data.product with
          | missing => simp [hdp] at hs
          | null => simp [hdp] at hs
          | val p =>
            simp only [hdp] at hs
            have hmap := hEcho _ _ _ hpp hdp
            simp only [buildProductBody, List.map_cons, List.map_nil] at hmap
            cases hl : p.variants.orDefault [] with
            | nil => rw [hl] at hmap; simp at hmap
            | cons v tl =>
              rw [hl] at hmap
              simp only [List.map_cons] at hmap
              injection hmap with hv htl
              rw [hl] at hs
              simp only [List.head?_cons, hv] at hs
              injection hs with h
              exact h.symm
    exact ⟨hsku, by rw [hsku]; exact jsStartsWith_append pfx (toString now)⟩
  · intro hs
    have hsku : s = pfx ++ toString now := by
      unfold createCustomProductUpload at hs
      cases ht : body.imageBase64.truthyStr with
      | none => simp [ht] at hs
      | some img =>
        simp only [ht] at hs
        cases hup : uploadFileToShopify postFile img
            ("custom-" ++ toString now ++ ".jpg") with
        | error e => simp [hup] at hs
        | ok fileUrl =>
          simp only [hup, createHiddenProductWithSrc] at hs
          cases hpp : postProduct (buildProductBodySrc pfx now
              (body.title.orMissing "Custom Jersey") fileUrl body.price) with
          | error e => simp [hpp] at hs
          | ok data =>
            simp only [hpp] at hs
            cases hdp : data.product with
            | missing => simp [hdp] at hs
            | null => simp [hdp] at hs
            | val p =>
              simp only [hdp] at hs
              have hmap := hEcho _ _ _ hpp hdp
              simp only [buildProductBodySrc, List.map_cons, List.map_nil] at hmap
              cases hl : p.variants.orDefault [] with
              | nil => rw [hl] at hmap; simp at hmap
              | cons v tl =>
                rw [hl] at hmap
                simp only [List.map_cons] at hmap
                injection hmap with hv htl
                rw [hl] at hs
                simp only [List.head?_cons, hv] at hs
                injection hs with h
                exact h.symm
    exact ⟨hsku, by rw [hsku]; exact jsStartsWith_append pfx (toString now)⟩

theorem create_success_sku_reserved_witness :
    (createCustomProduct postProductEcho "CUST-" 1730 bodyImg).sku =
      some "CUST-1730" ∧
    (createCustomProductUpload postFileEx postProductEcho "CUST-" 1730 bodyImg).sku =
      some "CUST-1730" ∧
    ("CUST-1730" = "CUST-" ++ toString 1730 ∧
      jsStartsWith "CUST-1730" "CUST-" = true) := by
  have hEchoEx : ∀ b r p, postProductEcho b = Except.ok r →
      r.product = JsField.val p →
      (p.variants.orDefault []).map (fun v => v.sku) =
        b.variants.map (fun v => JsField.val v.sku) := by
    intro b r p hbr hrp
    injection hbr with hr
    subst hr
    injection hrp with hp
    subst hp
    simp only [JsField.orDefault, List.map_map]
    rfl
  refine ⟨?_, by decide, ?_⟩
  · decide
  · exact (create_success_sku_reserved postFileEx postProductEcho "CUST-" 1730 bodyImg
      hEchoEx "CUST-1730").2 (by decide)
